import Mathlib

/-!
Verification of the record/stop/dispatch state machine of
`src/voice_agent_core.py` (Gemini Voice Assistant, F-keys edition).

The Python module keeps its state in module-level globals
(`shift_pressed`, `ctrl_pressed`, `is_recording`, `audio_frames`,
`current_model_name`, `current_prompt_mode`, `last_hotkey_time`) that are
mutated by the pynput key handlers, the audio-capture worker thread and the
Gemini submission thread.  The shallow embedding below models that state as
an explicit record, each handler as a function on it, and the asynchronous
pieces (capture worker, detached submission thread) as separate events of a
small-step world semantics, so that interleavings of key handling, capture
and submission execution can be reasoned about.

Time is modelled as an exact rational number of seconds (`time.time()`
values); audio blocks are lists of 16-bit samples modelled as integers.
-/

/-! ## Configuration constants (source lines 76-92) -/

def MODEL_FLASH : String := "gemini-2.5-flash-preview-04-17"

def MODEL_PRO : String := "gemini-2.5-pro-preview-03-25"

def DEFAULT_MODEL : String := MODEL_PRO

def PROMPT_MODE_TRANSCRIBE : String := "Transcribe"

def PROMPT_MODE_ASSISTANT : String := "Assistant"

def DEFAULT_PROMPT_MODE : String := PROMPT_MODE_ASSISTANT

/-- The two fixed prompt templates of the `PROMPTS` dict (lines 86-89). -/
def PROMPT_TEXT_TRANSCRIBE : String :=
  "Слушай внимательно, и транскрибируй мои голосовые, и ничего лишнего кроме транскрибации не отправляй, я могу иногда смешивать языки русского и английского, транскрибируй их внимательно и тщательно."

def PROMPT_TEXT_ASSISTANT : String :=
  "Слушай внимательно, ты даешь ответ на мои вопросы, без воды, ясно и понятно."

/-- `PROMPTS[mode]` as a partial lookup: `some` exactly on the two keys of
the dict, `none` otherwise (models Python `dict.get` without its default). -/
def PROMPTS_find (mode : String) : Option String :=
  if mode = PROMPT_MODE_TRANSCRIBE then some PROMPT_TEXT_TRANSCRIBE
  else if mode = PROMPT_MODE_ASSISTANT then some PROMPT_TEXT_ASSISTANT
  else none

/-- The debounce threshold of `on_key_press` (line 345): `0.6` seconds. -/
def DEBOUNCE_THRESHOLD : ℚ := 6 / 10

/-! ## Program state (the module-level globals, lines 100-109) -/

/-- An audio block delivered by the sounddevice callback: a list of int16
samples (mono, so one sample per frame). -/
abbrev AudioBlock := List Int

/-- The mutable global state of the module: modifier flags, the recording
flag, the accumulated audio frames, the two settings, and the debounce
timestamp `last_hotkey_time` (initially `0`). -/
structure AgentState where
  shift_pressed : Bool
  ctrl_pressed : Bool
  is_recording : Bool
  audio_frames : List AudioBlock
  current_model_name : String
  current_prompt_mode : String
  last_hotkey_time : ℚ
  deriving Repr, DecidableEq

/-- The state at module load (lines 100-109). -/
def initialState : AgentState :=
  { shift_pressed := false
    ctrl_pressed := false
    is_recording := false
    audio_frames := []
    current_model_name := DEFAULT_MODEL
    current_prompt_mode := DEFAULT_PROMPT_MODE
    last_hotkey_time := 0 }

/-! ## Recording session operations -/

/-- `start_audio_recording` (lines 163-176): under the lock, refuse if
already recording (returning `false`), otherwise set `is_recording`, spawn
the capture worker and return `true`.  The worker's first statement clears
`audio_frames` (line 128); that initialisation is folded into the start
step here. -/
def start_audio_recording (s : AgentState) : AgentState × Bool :=
  if s.is_recording then (s, false)
  else ({ s with is_recording := true, audio_frames := [] }, true)

/-- One delivery of a captured block: the worker appends the block to
`audio_frames` (line 149).  A block can only be appended while a session is
active (no worker is draining the queue otherwise). -/
def capture_audio_block (s : AgentState) (b : AudioBlock) : AgentState :=
  if s.is_recording then { s with audio_frames := s.audio_frames ++ [b] }
  else s

/-- Result of `stop_audio_recording_and_process`: the updated globals, the
boolean the function returns (`action_was_taken`), the buffer handed to the
spawned `submit_audio_to_gemini` thread (`none` when no submission is
started), and the titles of the notifications shown. -/
structure StopResult where
  state : AgentState
  action_was_taken : Bool
  submission : Option AudioBlock
  notifications : List String
  deriving Repr, DecidableEq

/-- `stop_audio_recording_and_process` (lines 178-231): return `false` if
not recording; otherwise clear `is_recording`, and if no frames were
captured show the "Recording Error" notification and return `true` with no
submission; else concatenate the frames (`np.concatenate`, line 210), save
the file, show "Recording Saved", spawn the Gemini submission thread with
the saved audio, clear `audio_frames`, and return `true`. -/
def stop_audio_recording_and_process (s : AgentState) : StopResult :=
  if !s.is_recording then
    { state := s, action_was_taken := false, submission := none,
      notifications := [] }
  else
    let s1 : AgentState := { s with is_recording := false }
    if s1.audio_frames.isEmpty then
      { state := s1, action_was_taken := true, submission := none,
        notifications := ["Recording Error"] }
    else
      { state := { s1 with audio_frames := [] }, action_was_taken := true,
        submission := some s1.audio_frames.flatten,
        notifications := ["Recording Saved"] }

/-! ## Settings toggles (lines 304-322) -/

/-- `cycle_prompt_mode` (lines 304-312): flip the prompt mode
(`Transcribe` if currently `Assistant`, else `Assistant`) and return
`True`. -/
def cycle_prompt_mode (s : AgentState) : AgentState × Bool :=
  ({ s with current_prompt_mode :=
      if s.current_prompt_mode = PROMPT_MODE_ASSISTANT then PROMPT_MODE_TRANSCRIBE
      else PROMPT_MODE_ASSISTANT }, true)

/-- `cycle_ai_model` (lines 314-322): flip the model (`MODEL_FLASH` if
currently `MODEL_PRO`, else `MODEL_PRO`) and return `True`. -/
def cycle_ai_model (s : AgentState) : AgentState × Bool :=
  ({ s with current_model_name :=
      if s.current_model_name = MODEL_PRO then MODEL_FLASH
      else MODEL_PRO }, true)

/-! ## Key handlers (lines 325-388) -/

/-- The keys the handlers distinguish: the two shift keys, the two ctrl
keys, the trigger key `F9`, and anything else. -/
inductive Key where
  | shiftKey
  | shift_r
  | ctrl_l
  | ctrl_r
  | f9
  | other
  deriving Repr, DecidableEq

/-- `on_key_press` (lines 325-374) at time `current_time` (`time.time()`,
line 344).  Returns the new global state together with the buffer handed to
a freshly spawned submission thread, if the press stopped a non-empty
recording.  Modifier presses only set the corresponding flag; an `F9` press
inside the debounce window is ignored entirely; otherwise the action is
dispatched on the modifier flags and `last_hotkey_time` is updated exactly
when the dispatched action reported `True` (lines 367-368). -/
def on_key_press (s : AgentState) (key : Key) (current_time : ℚ) :
    AgentState × Option AudioBlock :=
  match key with
  | Key.shiftKey => ({ s with shift_pressed := true }, none)
  | Key.shift_r => ({ s with shift_pressed := true }, none)
  | Key.ctrl_l => ({ s with ctrl_pressed := true }, none)
  | Key.ctrl_r => ({ s with ctrl_pressed := true }, none)
  | Key.other => (s, none)
  | Key.f9 =>
    if current_time - s.last_hotkey_time < DEBOUNCE_THRESHOLD then (s, none)
    else
      let step : AgentState × Bool × Option AudioBlock :=
        if s.shift_pressed && !s.ctrl_pressed then
          ((cycle_prompt_mode s).1, (cycle_prompt_mode s).2, none)
        else if s.ctrl_pressed && !s.shift_pressed then
          ((cycle_ai_model s).1, (cycle_ai_model s).2, none)
        else if !s.shift_pressed && !s.ctrl_pressed then
          if s.is_recording then
            ((stop_audio_recording_and_process s).state,
             (stop_audio_recording_and_process s).action_was_taken,
             (stop_audio_recording_and_process s).submission)
          else
            ((start_audio_recording s).1, (start_audio_recording s).2, none)
        else (s, false, none)
      (if step.2.1 then { step.1 with last_hotkey_time := current_time }
       else step.1,
       step.2.2)

/-- `on_key_release` (lines 376-388): clear the matching modifier flag
unconditionally; every other release is only logged. -/
def on_key_release (s : AgentState) (key : Key) : AgentState :=
  match key with
  | Key.shiftKey => { s with shift_pressed := false }
  | Key.shift_r => { s with shift_pressed := false }
  | Key.ctrl_l => { s with ctrl_pressed := false }
  | Key.ctrl_r => { s with ctrl_pressed := false }
  | _ => s

/-- Folding a burst of `F9` presses at the given times through
`on_key_press`, keeping only the state. -/
def pressBurst (s : AgentState) : List ℚ → AgentState
  | [] => s
  | t :: ts => pressBurst (on_key_press s Key.f9 t).1 ts

/-! ## Submission pipeline (`submit_audio_to_gemini`, lines 233-302)

The network collaborators are modelled as an environment record deciding
the outcome of each fallible external call: the upload, the generation
call, the clipboard write and the cleanup delete. -/

/-- The exception classes distinguished by the handlers of
`submit_audio_to_gemini` (lines 280-294). -/
inductive ExnKind where
  | permissionDenied
  | invalidArgumentOrNotFound
  | resourceExhausted
  | otherException
  deriving Repr, DecidableEq

/-- Outcome of `genai.upload_file` (line 242): a handle, or an exception. -/
inductive UploadOutcome where
  | ok (handle : String)
  | raises (e : ExnKind)
  deriving Repr, DecidableEq

/-- Outcome of `generate_content` (line 252): a response — its parts, the
`prompt_feedback.block_reason` when present and truthy (as its name), and
its `text` — or an exception. -/
inductive GenOutcome where
  | response (parts : List String) (block_reason : Option String) (text : String)
  | raises (e : ExnKind)
  deriving Repr, DecidableEq

/-- One invocation's external world: what each collaborator call does. -/
structure GeminiEnv where
  upload : UploadOutcome
  gen : GenOutcome
  clipboard_ok : Bool
  delete_ok : Bool
  deriving Repr, DecidableEq

/-- The distinct user-visible results of a submission. -/
inductive SubmitOutcome where
  | success (text : String)
  | successClipboardFailed (text : String)
  | blockedContent (reason : String)
  | emptyResponse
  | permissionDenied
  | invalidModelOrArgument
  | quotaExceeded
  | unknownError
  deriving Repr, DecidableEq

/-- Mapping of each caught exception class to the reported result
(lines 280-294). -/
def exn_outcome : ExnKind → SubmitOutcome
  | ExnKind.permissionDenied => SubmitOutcome.permissionDenied
  | ExnKind.invalidArgumentOrNotFound => SubmitOutcome.invalidModelOrArgument
  | ExnKind.resourceExhausted => SubmitOutcome.quotaExceeded
  | ExnKind.otherException => SubmitOutcome.unknownError

/-- What one run of `submit_audio_to_gemini` did: the reported result, how
many times `genai.delete_file` was attempted in the `finally` block, and
the model name and prompt text the run read from the globals. -/
structure SubmitTrace where
  outcome : SubmitOutcome
  delete_attempts : Nat
  model_used : String
  prompt_used : String
  deriving Repr, DecidableEq

/-- `submit_audio_to_gemini` (lines 233-302), run against the global state
`s` current when the detached thread executes.  The thread reads
`current_model_name` and `current_prompt_mode` from the globals (lines
236, 245-246); the prompt is `PROMPTS.get(current_prompt_mode,
PROMPTS[DEFAULT_PROMPT_MODE])`.  An empty `response.parts` with a truthy
block reason is reported as blocked content with that reason, an empty
response without one as the generic empty-response error (lines 255-266);
otherwise the stripped text is copied to the clipboard, a clipboard
failure only changing which notification carries the text (lines
268-278).  The `finally` block attempts the delete exactly when the upload
produced a file object, and a delete failure is only logged (lines
295-302). -/
def submit_audio_to_gemini (s : AgentState) (env : GeminiEnv) : SubmitTrace :=
  let model_used := s.current_model_name
  let prompt_used := (PROMPTS_find s.current_prompt_mode).getD PROMPT_TEXT_ASSISTANT
  match env.upload with
  | UploadOutcome.raises e =>
    { outcome := exn_outcome e, delete_attempts := 0,
      model_used := model_used, prompt_used := prompt_used }
  | UploadOutcome.ok _ =>
    let outcome :=
      match env.gen with
      | GenOutcome.raises e => exn_outcome e
      | GenOutcome.response parts block_reason text =>
        if parts.isEmpty then
          match block_reason with
          | some r => SubmitOutcome.blockedContent r
          | none => SubmitOutcome.emptyResponse
        else if env.clipboard_ok then SubmitOutcome.success text.trim
        else SubmitOutcome.successClipboardFailed text.trim
    { outcome := outcome, delete_attempts := 1,
      model_used := model_used, prompt_used := prompt_used }

/-! ## World semantics

A detached submission thread is spawned at stop time but reads the global
settings only when it executes.  The world keeps the agent state together
with the queue of spawned-but-not-yet-executed submission threads (each
identified by the audio buffer it was handed). -/

/-- Whole-program state: the globals plus the pending detached submission
threads. -/
structure World where
  agent : AgentState
  pending : List AudioBlock
  deriving Repr, DecidableEq

/-- The world at startup. -/
def initialWorld : World := { agent := initialState, pending := [] }

/-- The observable events: a key press at a time, a key release, delivery
of one captured audio block, and the execution of the oldest pending
submission thread against an external environment. -/
inductive Event where
  | keyPress (k : Key) (t : ℚ)
  | keyRelease (k : Key)
  | captureBlock (b : AudioBlock)
  | runSubmission (env : GeminiEnv)
  deriving Repr, DecidableEq

/-- One world step; the second component is the trace of the submission
run by this event, if any. -/
def World.step (w : World) (e : Event) : World × Option SubmitTrace :=
  match e with
  | Event.keyPress k t =>
    let r := on_key_press w.agent k t
    ({ agent := r.1, pending := w.pending ++ r.2.toList }, none)
  | Event.keyRelease k =>
    ({ w with agent := on_key_release w.agent k }, none)
  | Event.captureBlock b =>
    ({ w with agent := capture_audio_block w.agent b }, none)
  | Event.runSubmission env =>
    match w.pending with
    | [] => (w, none)
    | _ :: rest =>
      ({ w with pending := rest }, some (submit_audio_to_gemini w.agent env))

/-- Run a list of events, collecting the traces of the executed
submissions in order. -/
def runWorld (w : World) : List Event → World × List SubmitTrace
  | [] => (w, [])
  | e :: es =>
    let r := w.step e
    let rest := runWorld r.1 es
    (rest.1, r.2.toList ++ rest.2)

/-- The worlds reachable from startup. -/
inductive Reachable : World → Prop where
  | init : Reachable initialWorld
  | step (w : World) (e : Event) : Reachable w → Reachable (w.step e).1

/-! ## Helper lemmas -/

/-- A trigger press inside the debounce window changes nothing at all:
not the state, not the timestamp, and spawns no submission (line 347's
early return). -/
theorem on_key_press_f9_ignored (s : AgentState) (t : ℚ)
    (h : t - s.last_hotkey_time < DEBOUNCE_THRESHOLD) :
    on_key_press s Key.f9 t = (s, none) := by
  simp [on_key_press, h]

/-- A burst of trigger presses, each one landing inside the debounce
window measured from the same `last_hotkey_time`, leaves the state
untouched. -/
theorem pressBurst_all_ignored (s : AgentState) (ts : List ℚ)
    (h : ∀ t ∈ ts, t - s.last_hotkey_time < DEBOUNCE_THRESHOLD) :
    pressBurst s ts = s := by
  induction ts with
  | nil => rfl
  | cons t ts ih =>
    have ht : t - s.last_hotkey_time < DEBOUNCE_THRESHOLD := h t (by simp)
    have hstep : (on_key_press s Key.f9 t).1 = s := by
      rw [on_key_press_f9_ignored s t ht]
    calc pressBurst s (t :: ts) = pressBurst (on_key_press s Key.f9 t).1 ts := rfl
      _ = pressBurst s ts := by rw [hstep]
      _ = s := ih (fun u hu => h u (by simp [hu]))

/-! ## Claim theorems -/

/-- Claim C1: stopping an Active session transitions it to Idle and
returns `true`; with at least one captured block the buffer handed to the
submission thread is the ordered concatenation of the blocks; with no
captured block the "Recording Error" notification reports the
empty-recording failure and no submission is started. -/
theorem stop_active_concatenates_blocks (s : AgentState)
    (h : s.is_recording = true) :
    (stop_audio_recording_and_process s).state.is_recording = false ∧
    (stop_audio_recording_and_process s).action_was_taken = true ∧
    (s.audio_frames ≠ [] →
      (stop_audio_recording_and_process s).submission =
        some s.audio_frames.flatten) ∧
    (s.audio_frames = [] →
      (stop_audio_recording_and_process s).submission = none ∧
      "Recording Error" ∈ (stop_audio_recording_and_process s).notifications) := by
  rcases hf : s.audio_frames with _ | ⟨b, bs⟩ <;>
    simp [stop_audio_recording_and_process, h, hf]

/-- A session that is Active and has captured the two blocks
`[1, 2]` and `[3]`. -/
def recState : AgentState :=
  { initialState with is_recording := true, audio_frames := [[1, 2], [3]] }

/-- Witness for C1: stopping `recState` hands off exactly the
concatenation `[1, 2, 3]`. -/
theorem stop_active_concatenates_blocks_witness :
    (stop_audio_recording_and_process recState).submission = some [1, 2, 3] := by
  simpa [recState, initialState] using
    (stop_active_concatenates_blocks recState rfl).2.2.1 (by simp [recState, initialState])

/-- Claim C4: `start_audio_recording` on an Idle session returns `true`
and sets `is_recording` (the spawned worker clearing the frame buffer);
on an Active session it returns `false` — reporting the failure to its
caller and as a logged warning — and leaves the state unchanged. -/
theorem start_idle_succeeds_active_fails (s : AgentState) :
    (s.is_recording = false →
      start_audio_recording s =
        ({ s with is_recording := true, audio_frames := [] }, true)) ∧
    (s.is_recording = true → start_audio_recording s = (s, false)) := by
  constructor <;> intro h <;> simp [start_audio_recording, h]

/-- Witness for C4: starting from the initial (Idle) state succeeds, and
starting again from the resulting Active state fails without changing it. -/
theorem start_idle_succeeds_active_fails_witness :
    start_audio_recording initialState =
      ({ initialState with is_recording := true, audio_frames := [] }, true) ∧
    start_audio_recording { initialState with is_recording := true } =
      ({ initialState with is_recording := true }, false) :=
  ⟨(start_idle_succeeds_active_fails initialState).1 rfl,
   (start_idle_succeeds_active_fails { initialState with is_recording := true }).2 rfl⟩

/-- Claim C8: on the two-valued domains, toggling the prompt mode twice
and toggling the model twice each restore the original value. -/
theorem settings_toggles_are_involutions (s : AgentState)
    (hmode : s.current_prompt_mode = PROMPT_MODE_TRANSCRIBE ∨
      s.current_prompt_mode = PROMPT_MODE_ASSISTANT)
    (hmodel : s.current_model_name = MODEL_FLASH ∨
      s.current_model_name = MODEL_PRO) :
    ((cycle_prompt_mode (cycle_prompt_mode s).1).1).current_prompt_mode =
      s.current_prompt_mode ∧
    ((cycle_ai_model (cycle_ai_model s).1).1).current_model_name =
      s.current_model_name := by
  constructor
  · rcases hmode with h | h <;>
      simp [cycle_prompt_mode, h, PROMPT_MODE_TRANSCRIBE, PROMPT_MODE_ASSISTANT]
  · rcases hmodel with h | h <;>
      simp [cycle_ai_model, h, MODEL_FLASH, MODEL_PRO]

/-- Witness for C8 at the default settings. -/
theorem settings_toggles_are_involutions_witness :
    ((cycle_prompt_mode (cycle_prompt_mode initialState).1).1).current_prompt_mode =
      initialState.current_prompt_mode ∧
    ((cycle_ai_model (cycle_ai_model initialState).1).1).current_model_name =
      initialState.current_model_name :=
  settings_toggles_are_involutions initialState (Or.inr rfl) (Or.inr rfl)

/-- Claim C2 (amended): the debounce window is anchored at the last
*accepted* press.  If the press at `t0` performed an action (so
`last_hotkey_time` became `t0`), then every further trigger press landing
within the threshold of `t0` — not merely of its predecessor — is ignored
entirely, and the state after the whole burst equals the state after just
the first press. -/
theorem debounce_suppresses_burst_within_window (s : AgentState) (t0 : ℚ)
    (ts : List ℚ)
    (haccepted : ((on_key_press s Key.f9 t0).1).last_hotkey_time = t0)
    (hburst : ∀ t ∈ ts, t - t0 < DEBOUNCE_THRESHOLD) :
    pressBurst (on_key_press s Key.f9 t0).1 ts =
      (on_key_press s Key.f9 t0).1 := by
  apply pressBurst_all_ignored
  intro t ht
  rw [haccepted]
  exact hburst t ht

/-- Witness for C2 as amended: a first press at time `100` from the
initial state (accepted: it starts a recording), followed by presses at
`100 + 1/4` and `100 + 1/2`, leaves the state exactly as after the first
press. -/
theorem debounce_suppresses_burst_within_window_witness :
    pressBurst (on_key_press initialState Key.f9 100).1 [100 + 1/4, 100 + 1/2] =
      (on_key_press initialState Key.f9 100).1 :=
  debounce_suppresses_burst_within_window initialState 100 [100 + 1/4, 100 + 1/2]
    (by norm_num [on_key_press, initialState, DEBOUNCE_THRESHOLD,
          start_audio_recording])
    (by intro t ht
        simp only [List.mem_cons, List.not_mem_nil, or_false] at ht
        rcases ht with rfl | rfl <;> norm_num [DEBOUNCE_THRESHOLD])

/-- Counterexample to C2 as stated: three trigger presses at times `100`,
`100 + 1/2` and `101`, consecutive gaps `1/2 < 0.6` each, yet the state
after the burst differs from the state after the first press alone — the
third press lands `1` second after the last accepted press and is
accepted (it stops the recording the first press started). -/
theorem debounce_burst_counterexample :
    (((100:ℚ) + 1/2) - 100 < DEBOUNCE_THRESHOLD ∧
      (101:ℚ) - (100 + 1/2) < DEBOUNCE_THRESHOLD) ∧
    pressBurst initialState [100, 100 + 1/2, 101] ≠
      pressBurst initialState [100] := by
  constructor
  · constructor <;> norm_num [DEBOUNCE_THRESHOLD]
  · norm_num [pressBurst, on_key_press, initialState, DEBOUNCE_THRESHOLD,
      start_audio_recording, stop_audio_recording_and_process,
      AgentState.mk.injEq]

/-- Claim C3: an `F9` press outside the debounce window is dispatched on
the modifier flags sampled at the press: shift only toggles the prompt
mode, ctrl only toggles the model, no modifier toggles recording (start
when Idle, stop-and-submit when Recording), and any other combination is
a no-op that leaves the whole state unchanged. -/
theorem trigger_dispatch_on_modifiers (s : AgentState) (t : ℚ)
    (hdeb : ¬ (t - s.last_hotkey_time < DEBOUNCE_THRESHOLD)) :
    (s.shift_pressed = true → s.ctrl_pressed = false →
      on_key_press s Key.f9 t =
        ({ (cycle_prompt_mode s).1 with last_hotkey_time := t }, none)) ∧
    (s.ctrl_pressed = true → s.shift_pressed = false →
      on_key_press s Key.f9 t =
        ({ (cycle_ai_model s).1 with last_hotkey_time := t }, none)) ∧
    (s.shift_pressed = false → s.ctrl_pressed = false → s.is_recording = false →
      on_key_press s Key.f9 t =
        ({ (start_audio_recording s).1 with last_hotkey_time := t }, none)) ∧
    (s.shift_pressed = false → s.ctrl_pressed = false → s.is_recording = true →
      on_key_press s Key.f9 t =
        ({ (stop_audio_recording_and_process s).state with
            last_hotkey_time := t },
          (stop_audio_recording_and_process s).submission)) ∧
    (s.shift_pressed = true → s.ctrl_pressed = true →
      on_key_press s Key.f9 t = (s, none)) := by
  refine ⟨?_, ?_, ?_, ?_, ?_⟩ <;> intro h1 h2
  · simp [on_key_press, hdeb, h1, h2, cycle_prompt_mode]
  · simp [on_key_press, hdeb, h1, h2, cycle_ai_model]
  · intro h3
    simp [on_key_press, hdeb, h1, h2, h3, start_audio_recording]
  · intro h3
    rcases hf : s.audio_frames with _ | ⟨b, bs⟩ <;>
      simp [on_key_press, hdeb, h1, h2, h3, hf, stop_audio_recording_and_process]
  · simp [on_key_press, hdeb, h1, h2]

/-- Witness for C3: with shift held and ctrl clear, an `F9` press at time
`100` from a fresh state toggles the prompt mode. -/
theorem trigger_dispatch_on_modifiers_witness :
    on_key_press { initialState with shift_pressed := true } Key.f9 100 =
      ({ (cycle_prompt_mode { initialState with shift_pressed := true }).1 with
          last_hotkey_time := 100 }, none) :=
  (trigger_dispatch_on_modifiers { initialState with shift_pressed := true } 100
    (by norm_num [initialState, DEBOUNCE_THRESHOLD])).1 rfl rfl

/-- Claim C10: stopping an Active session that captured no blocks still
returns `true` and spawns no submission, so the `F9` press that caused it
updates `last_hotkey_time` to the press time and a further trigger press
within the threshold is ignored outright. -/
theorem empty_stop_still_arms_debounce (s : AgentState) (t u : ℚ)
    (hrec : s.is_recording = true) (hframes : s.audio_frames = [])
    (hshift : s.shift_pressed = false) (hctrl : s.ctrl_pressed = false)
    (hdeb : ¬ (t - s.last_hotkey_time < DEBOUNCE_THRESHOLD))
    (hnext : u - t < DEBOUNCE_THRESHOLD) :
    (stop_audio_recording_and_process s).action_was_taken = true ∧
    (stop_audio_recording_and_process s).submission = none ∧
    (on_key_press s Key.f9 t).1.last_hotkey_time = t ∧
    on_key_press (on_key_press s Key.f9 t).1 Key.f9 u =
      ((on_key_press s Key.f9 t).1, none) := by
  have hstop : stop_audio_recording_and_process s =
      { state := { s with is_recording := false }, action_was_taken := true,
        submission := none, notifications := ["Recording Error"] } := by
    simp [stop_audio_recording_and_process, hrec, hframes]
  have h1 : (on_key_press s Key.f9 t).1 =
      { s with is_recording := false, last_hotkey_time := t } := by
    simp [on_key_press, hdeb, hshift, hctrl, hrec, hstop]
  refine ⟨by simp [hstop], by simp [hstop], by simp [h1], ?_⟩
  rw [h1]
  exact on_key_press_f9_ignored _ u (by simpa using hnext)

/-- Witness for C10: an Active session with no captured blocks, stopped
by a press at `100`; the follow-up press at `100 + 1/2` is suppressed. -/
theorem empty_stop_still_arms_debounce_witness :
    (on_key_press { initialState with is_recording := true } Key.f9 100).1.last_hotkey_time
      = 100 :=
  (empty_stop_still_arms_debounce { initialState with is_recording := true }
    100 (100 + 1/2) rfl rfl rfl rfl
    (by norm_num [initialState, DEBOUNCE_THRESHOLD])
    (by norm_num [DEBOUNCE_THRESHOLD])).2.2.1

/-- Claim C6: a generation response with no parts is reported as blocked
content carrying the block reason when the prompt feedback has one, and
as the generic empty-response error when it does not; the two reports are
distinct. -/
theorem empty_response_block_reason_dispatch (s : AgentState)
    (handle : String) (br : Option String) (txt : String) (cb dk : Bool) :
    (∀ r, br = some r →
      (submit_audio_to_gemini s
        { upload := UploadOutcome.ok handle,
          gen := GenOutcome.response [] br txt,
          clipboard_ok := cb, delete_ok := dk }).outcome =
        SubmitOutcome.blockedContent r ∧
      SubmitOutcome.blockedContent r ≠ SubmitOutcome.emptyResponse) ∧
    (br = none →
      (submit_audio_to_gemini s
        { upload := UploadOutcome.ok handle,
          gen := GenOutcome.response [] br txt,
          clipboard_ok := cb, delete_ok := dk }).outcome =
        SubmitOutcome.emptyResponse) := by
  constructor
  · rintro r rfl
    exact ⟨by simp [submit_audio_to_gemini], by simp⟩
  · rintro rfl
    simp [submit_audio_to_gemini]

/-- Witness for C6: an empty response blocked with reason `SAFETY` is
reported as blocked content, and one without a reason as the generic
empty-response error. -/
theorem empty_response_block_reason_dispatch_witness :
    (submit_audio_to_gemini initialState
      { upload := UploadOutcome.ok "files/a",
        gen := GenOutcome.response [] (some "SAFETY") "",
        clipboard_ok := true, delete_ok := true }).outcome =
      SubmitOutcome.blockedContent "SAFETY" ∧
    (submit_audio_to_gemini initialState
      { upload := UploadOutcome.ok "files/a",
        gen := GenOutcome.response [] none "",
        clipboard_ok := true, delete_ok := true }).outcome =
      SubmitOutcome.emptyResponse :=
  ⟨((empty_response_block_reason_dispatch initialState "files/a" (some "SAFETY")
      "" true true).1 "SAFETY" rfl).1,
   (empty_response_block_reason_dispatch initialState "files/a" none
      "" true true).2 rfl⟩

/-- Claim C7: whenever the upload produced a file object, the `finally`
block attempts the delete exactly once, whatever the generation call did;
and the reported outcome never depends on whether that delete succeeds. -/
theorem cleanup_delete_attempted_once (s : AgentState) (env : GeminiEnv)
    (handle : String) (h : env.upload = UploadOutcome.ok handle) :
    (submit_audio_to_gemini s env).delete_attempts = 1 ∧
    (∀ b : Bool,
      (submit_audio_to_gemini s { env with delete_ok := b }).outcome =
        (submit_audio_to_gemini s env).outcome) := by
  obtain ⟨up, gen, cb, dk⟩ := env
  simp only at h
  subst h
  exact ⟨by simp [submit_audio_to_gemini], fun b => by simp [submit_audio_to_gemini]⟩

/-- Witness for C7: a failing generation call (quota exhausted) still has
its uploaded file deleted exactly once. -/
theorem cleanup_delete_attempted_once_witness :
    (submit_audio_to_gemini initialState
      { upload := UploadOutcome.ok "files/a",
        gen := GenOutcome.raises ExnKind.resourceExhausted,
        clipboard_ok := true, delete_ok := false }).delete_attempts = 1 :=
  (cleanup_delete_attempted_once initialState
    { upload := UploadOutcome.ok "files/a",
      gen := GenOutcome.raises ExnKind.resourceExhausted,
      clipboard_ok := true, delete_ok := false } "files/a" rfl).1

/-- Claim C5 (amended): a submission uses the model and prompt-mode
values the globals hold at the moment the detached submission thread
executes and reads them — not a snapshot taken at stop time.  Toggling a
setting between the stop and the thread's execution therefore does change
which model and prompt the submission uses. -/
theorem submission_reads_settings_at_run_time (w : World) (env : GeminiEnv)
    (buf : AudioBlock) (rest : List AudioBlock) (h : w.pending = buf :: rest) :
    (w.step (Event.runSubmission env)).2 =
      some (submit_audio_to_gemini w.agent env) ∧
    (submit_audio_to_gemini w.agent env).model_used =
      w.agent.current_model_name ∧
    (submit_audio_to_gemini w.agent env).prompt_used =
      (PROMPTS_find w.agent.current_prompt_mode).getD PROMPT_TEXT_ASSISTANT := by
  refine ⟨by simp [World.step, h], ?_, ?_⟩ <;>
    cases henv : env.upload <;> simp [submit_audio_to_gemini, henv]

/-- The external environment of a successful submission. -/
def okEnv : GeminiEnv :=
  { upload := UploadOutcome.ok "files/audio1",
    gen := GenOutcome.response ["Hello world"] none "Hello world",
    clipboard_ok := true, delete_ok := true }

/-- Start a recording at `100`, capture one block, stop at `101`. -/
def snapshotTracePrefix : List Event :=
  [Event.keyPress Key.f9 100, Event.captureBlock [1, 2, 3],
   Event.keyPress Key.f9 101]

/-- After the stop, press ctrl and toggle the model at `103`, and only
then let the pending submission thread execute. -/
def snapshotTrace : List Event :=
  snapshotTracePrefix ++
    [Event.keyPress Key.ctrl_l 102, Event.keyPress Key.f9 103,
     Event.runSubmission okEnv]

/-- Witness for C5 as amended: in the world reached by `snapshotTrace`
minus its final event, running the pending submission uses the model
current at that moment. -/
theorem submission_reads_settings_at_run_time_witness :
    ((runWorld initialWorld (snapshotTracePrefix ++
        [Event.keyPress Key.ctrl_l 102, Event.keyPress Key.f9 103])).1.step
      (Event.runSubmission okEnv)).2 =
      some (submit_audio_to_gemini
        (runWorld initialWorld (snapshotTracePrefix ++
          [Event.keyPress Key.ctrl_l 102, Event.keyPress Key.f9 103])).1.agent
        okEnv) :=
  (submission_reads_settings_at_run_time
    (runWorld initialWorld (snapshotTracePrefix ++
      [Event.keyPress Key.ctrl_l 102, Event.keyPress Key.f9 103])).1
    okEnv [1, 2, 3] []
    (by norm_num [runWorld, World.step, initialWorld, initialState,
      snapshotTracePrefix, on_key_press, DEBOUNCE_THRESHOLD,
      start_audio_recording, stop_audio_recording_and_process,
      capture_audio_block, cycle_ai_model])).1

/-- Counterexample to C5 as stated: the model in effect when the recording
was stopped (end of `snapshotTracePrefix`) is `MODEL_PRO`, and the stop
has handed the buffer `[1, 2, 3]` to the pipeline; yet the submission,
executed after a model toggle, uses `MODEL_FLASH ≠ MODEL_PRO`. -/
theorem submission_stop_time_snapshot_counterexample :
    (runWorld initialWorld snapshotTracePrefix).1.agent.current_model_name =
      MODEL_PRO ∧
    (runWorld initialWorld snapshotTracePrefix).1.pending = [[1, 2, 3]] ∧
    ((runWorld initialWorld snapshotTrace).2.map SubmitTrace.model_used) =
      [ MODEL_FLASH ] ∧
    MODEL_FLASH ≠ MODEL_PRO := by
  refine ⟨?_, ?_, ?_, by decide⟩ <;>
    norm_num [runWorld, World.step, initialWorld, initialState, snapshotTrace,
      snapshotTracePrefix, okEnv, on_key_press, DEBOUNCE_THRESHOLD,
      start_audio_recording, stop_audio_recording_and_process,
      capture_audio_block, cycle_ai_model, submit_audio_to_gemini,
      MODEL_FLASH, MODEL_PRO, DEFAULT_MODEL]

/-! ## The settings invariant -/

/-- The two settings hold legal values: the prompt mode is one of the two
`PROMPTS` keys and the model is one of the two configured model names. -/
def SettingsOK (s : AgentState) : Prop :=
  (s.current_prompt_mode = PROMPT_MODE_TRANSCRIBE ∨
    s.current_prompt_mode = PROMPT_MODE_ASSISTANT) ∧
  (s.current_model_name = MODEL_FLASH ∨ s.current_model_name = MODEL_PRO)

/-- `stop_audio_recording_and_process` never touches the settings. -/
theorem SettingsOK_stop (s : AgentState) (h : SettingsOK s) :
    SettingsOK (stop_audio_recording_and_process s).state := by
  by_cases hr : s.is_recording <;> by_cases hf : s.audio_frames.isEmpty <;>
    simp [stop_audio_recording_and_process, hr, hf] <;> exact ⟨h.1, h.2⟩

/-- `on_key_press` preserves legal settings: the only operations that
write them are the two cycles, whose results are always legal. -/
theorem SettingsOK_on_key_press (s : AgentState) (k : Key) (t : ℚ)
    (h : SettingsOK s) : SettingsOK (on_key_press s k t).1 := by
  obtain ⟨hm, hn⟩ := h
  cases k
  case shiftKey => exact ⟨hm, hn⟩
  case shift_r => exact ⟨hm, hn⟩
  case ctrl_l => exact ⟨hm, hn⟩
  case ctrl_r => exact ⟨hm, hn⟩
  case other => exact ⟨hm, hn⟩
  case f9 =>
    by_cases hdeb : t - s.last_hotkey_time < DEBOUNCE_THRESHOLD
    · simp only [on_key_press, hdeb, if_true]
      exact ⟨hm, hn⟩
    · by_cases h1 : s.shift_pressed <;> by_cases h2 : s.ctrl_pressed <;>
        by_cases h3 : s.is_recording <;> by_cases h4 : s.audio_frames.isEmpty <;>
        rcases hm with hm | hm <;> rcases hn with hn | hn <;>
        simp [on_key_press, hdeb, h1, h2, h3, h4, hm, hn, SettingsOK,
          cycle_prompt_mode, cycle_ai_model, start_audio_recording,
          stop_audio_recording_and_process, PROMPT_MODE_TRANSCRIBE,
          PROMPT_MODE_ASSISTANT, MODEL_FLASH, MODEL_PRO]

/-- Every world step preserves legal settings. -/
theorem SettingsOK_step (w : World) (e : Event) (h : SettingsOK w.agent) :
    SettingsOK (w.step e).1.agent := by
  cases e with
  | keyPress k t => exact SettingsOK_on_key_press w.agent k t h
  | keyRelease k => cases k <;> exact ⟨h.1, h.2⟩
  | captureBlock b =>
    show SettingsOK (capture_audio_block w.agent b)
    unfold capture_audio_block
    split <;> exact ⟨h.1, h.2⟩
  | runSubmission env =>
    show SettingsOK (match w.pending with
      | [] => (w, (none : Option SubmitTrace))
      | _ :: rest =>
        ({ w with pending := rest }, some (submit_audio_to_gemini w.agent env))).1.agent
    rcases w.pending with _ | ⟨b, rest⟩ <;> exact ⟨h.1, h.2⟩

/-- Claim C9: in every reachable world the prompt mode is one of
`{Transcribe, Assistant}` and the model one of `{MODEL_FLASH, MODEL_PRO}`,
so the `PROMPTS.get` lookup always finds its key and its `Assistant`
default is never exercised. -/
theorem reachable_settings_invariant (w : World) (h : Reachable w) :
    ((w.agent.current_prompt_mode = PROMPT_MODE_TRANSCRIBE ∨
      w.agent.current_prompt_mode = PROMPT_MODE_ASSISTANT) ∧
     (w.agent.current_model_name = MODEL_FLASH ∨
      w.agent.current_model_name = MODEL_PRO)) ∧
    (PROMPTS_find w.agent.current_prompt_mode).isSome = true := by
  have hs : SettingsOK w.agent := by
    induction h with
    | init => exact ⟨Or.inr rfl, Or.inr rfl⟩
    | step w e hw ih => exact SettingsOK_step w e ih
  refine ⟨hs, ?_⟩
  rcases hs.1 with h1 | h1 <;>
    simp [PROMPTS_find, h1, PROMPT_MODE_TRANSCRIBE, PROMPT_MODE_ASSISTANT]

/-- Witness for C9 at the initial world. -/
theorem reachable_settings_invariant_witness :
    (PROMPTS_find initialWorld.agent.current_prompt_mode).isSome = true :=
  (reachable_settings_invariant initialWorld Reachable.init).2
